import Mathlib

/-!
Shallow embedding of `basic_job_marketplace.py` (the only source file of the
KaamConnect repository).  The SQLite database file `job_marketplace_simple.db`
is modelled as explicit state (`DB`); each MCP tool becomes a Lean function
from the current state (plus a `now` string wherever the code calls
`datetime.now().isoformat()`) to its textual reply and the next state.
SQLite `LIKE` is modelled with its default ASCII case folding and its `%`
and `_` wildcards; a negative bound value for `LIMIT ?` is modelled as
"no limit", as SQLite defines it.
-/

/-- SQLite default `LIKE` case folding: ASCII upper-case letters compare
equal to their lower-case forms; every other character is compared verbatim. -/
def likeFold (c : Char) : Char :=
  if 65 ≤ c.toNat && c.toNat ≤ 90 then Char.ofNat (c.toNat + 32) else c

/-- All suffixes of a character list, longest first. -/
def sfx : List Char → List (List Char)
  | [] => [[]]
  | c :: cs => (c :: cs) :: sfx cs

/-- Matcher for an SQLite `LIKE` pattern: `%` matches any sequence, `_`
matches any single character, and other characters are compared after
`likeFold` (SQLite `LIKE` is ASCII-case-insensitive by default; the code
never changes `PRAGMA case_sensitive_like`). -/
def likeAux : List Char → List Char → Bool
  | [], s => s.isEmpty
  | '%' :: ps, s => (sfx s).any (fun t => likeAux ps t)
  | '_' :: ps, s =>
      match s with
      | [] => false
      | _ :: s2 => likeAux ps s2
  | p :: ps, s =>
      match s with
      | [] => false
      | c :: s2 => likeFold p == likeFold c && likeAux ps s2

/-- `column LIKE ?` with the bound parameter built as `f"%{term}%"`, exactly
as `find_job_providers` and `browse_job_providers` build it. -/
def likeContains (term s : String) : Bool :=
  likeAux ("%" ++ term ++ "%").toList s.toList

def prefixOfB : List Char → List Char → Bool
  | [], _ => true
  | _ :: _, [] => false
  | a :: as, b :: bs => a == b && prefixOfB as bs

/-- Plain case-sensitive substring test.  This is not used by the code
model; it only serves to state the spec claim of case-sensitive matching,
for comparison with the SQLite `LIKE` model. -/
def substrCS (needle hay : String) : Bool :=
  (sfx hay.toList).any (fun t => prefixOfB needle.toList t)

/-- The whitespace class of Python `str.split()` with no argument. -/
def isPySpace (c : Char) : Bool :=
  c == ' ' || c == '\t' || c == '\n' || c == '\r' || c == '\x0b' || c == '\x0c'

def wordsAux : List Char → List Char → List String
  | [], cur => if cur.isEmpty then [] else [String.mk cur.reverse]
  | c :: cs, cur =>
      if isPySpace c then
        (if cur.isEmpty then [] else [String.mk cur.reverse]) ++ wordsAux cs []
      else wordsAux cs (c :: cur)

/-- Python `s.split()`: split on runs of whitespace, dropping empty pieces. -/
def splitWS (s : String) : List String := wordsAux s.toList []

/-- Number of occurrences of token `t` in a token list. -/
def occCount (t : String) : List String → Nat
  | [] => 0
  | x :: xs => (if x = t then 1 else 0) + occCount t xs

/-- One step of the loop `service_count[skill] = service_count.get(skill, 0) + 1`
on a Python dict modelled as an association list in key-insertion order:
an existing key is updated in place, a new key is appended at the end. -/
def bump (k : String) : List (String × Nat) → List (String × Nat)
  | [] => [(k, 1)]
  | p :: rest => if p.1 = k then (p.1, p.2 + 1) :: rest else p :: bump k rest

/-- First occurrences of the tokens of a list, in order, skipping any token
that occurs in the exclusion list `ex`. -/
def firstOccExcl : List String → List String → List String
  | _, [] => []
  | ex, t :: ts => if t ∈ ex then firstOccExcl ex ts else t :: firstOccExcl (t :: ex) ts

/-- Insert into a list that is sorted by descending count, after every
element of strictly larger count and before every element of equal or
smaller count (so that, among equal counts, earlier input stays first). -/
def insCountDesc (e : String × Nat) : List (String × Nat) → List (String × Nat)
  | [] => [e]
  | x :: xs => if x.2 ≤ e.2 then e :: x :: xs else x :: insCountDesc e xs

/-- Stable sort by descending count, the behaviour of Python
`sorted(items, key=lambda x: x[1], reverse=True)`. -/
def sortCountDesc : List (String × Nat) → List (String × Nat)
  | [] => []
  | x :: xs => insCountDesc x (sortCountDesc xs)

/-- A row of `job_providers` in column order:
id, user_id, name, phone, skills, location, city, experience, rate,
available, created_at. -/
structure ProviderRow where
  id : Nat
  user_id : String
  name : String
  phone : String
  skills : String
  location : String
  city : String
  experience : String
  rate : String
  available : Nat
  created_at : String
  deriving DecidableEq

/-- A row of `job_seekers` in column order:
id, user_id, name, phone, location, city, created_at. -/
structure SeekerRow where
  id : Nat
  user_id : String
  name : String
  phone : String
  location : String
  city : String
  created_at : String
  deriving DecidableEq

/-- A row of `job_requests` in column order:
id, seeker_id, job_type, description, location, status, created_at. -/
structure RequestRow where
  id : Nat
  seeker_id : String
  job_type : String
  description : String
  location : String
  status : String
  created_at : String
  deriving DecidableEq

/-- The SQLite file: the three tables plus the AUTOINCREMENT counters that
assign the next primary key of each table. -/
structure DB where
  providers : List ProviderRow
  seekers : List SeekerRow
  requests : List RequestRow
  nextProviderId : Nat
  nextSeekerId : Nat
  nextRequestId : Nat
  deriving DecidableEq

def emptyDB : DB := ⟨[], [], [], 1, 1, 1⟩

/-- Positional access `provider[i]` to a fetched `SELECT *` tuple of
`job_providers`, as the Python code indexes it.  The columns rendered by
the code (indices 1 through 8) are TEXT; indices 0 and 9 are integers and
are rendered through `toString` for completeness. -/
def pcol (r : ProviderRow) : Nat → String
  | 0 => toString r.id
  | 1 => r.user_id
  | 2 => r.name
  | 3 => r.phone
  | 4 => r.skills
  | 5 => r.location
  | 6 => r.city
  | 7 => r.experience
  | 8 => r.rate
  | 9 => toString r.available
  | _ => r.created_at

/-- Positional access `seeker[i]` to a fetched `SELECT *` tuple of
`job_seekers`. -/
def scol (s : SeekerRow) : Nat → String
  | 0 => toString s.id
  | 1 => s.user_id
  | 2 => s.name
  | 3 => s.phone
  | 4 => s.location
  | 5 => s.city
  | _ => s.created_at

/-- One entry of the Python `sample_providers` literal:
(user_id, name, phone, skills, location, city, experience, rate, available). -/
structure SeedProvider where
  user_id : String
  name : String
  phone : String
  skills : String
  location : String
  city : String
  experience : String
  rate : String
  available : Nat
  deriving DecidableEq

/-- The `sample_providers` literal of `setup_simple_database`. -/
def sample_providers : List SeedProvider :=
  [⟨"provider_001", "Rajesh Kumar", "9876543210", "plumber bathroom repair pipe fixing", "Andheri West", "Mumbai", "5 years", "500 per day", 1⟩,
   ⟨"provider_002", "Suresh Patel", "9876543211", "electrician wiring ac repair", "Bandra East", "Mumbai", "3 years", "400 per day", 1⟩,
   ⟨"provider_003", "Amit Sharma", "9876543212", "painter wall painting interior", "Powai", "Mumbai", "7 years", "600 per day", 1⟩,
   ⟨"provider_004", "Ramesh Yadav", "9876543213", "plumber pipeline bathroom fitting", "Hitech City", "Hyderabad", "6 years", "550 per day", 1⟩,
   ⟨"provider_005", "Krishna Reddy", "9876543214", "electrician home wiring electrical", "Gachibowli", "Hyderabad", "8 years", "700 per day", 1⟩]

/-- `INSERT INTO job_providers (...) VALUES (...)` with the AUTOINCREMENT
id and `created_at = now`. -/
def insert_provider (db : DB) (p : SeedProvider) (now : String) : DB :=
  { db with
      providers := db.providers ++ [⟨db.nextProviderId, p.user_id, p.name, p.phone, p.skills, p.location, p.city, p.experience, p.rate, p.available, now⟩],
      nextProviderId := db.nextProviderId + 1 }

/-- `setup_simple_database` (run at every process start): drops the three
tables, recreates them empty — which also resets the AUTOINCREMENT
counters — then inserts the five sample providers.  The prior contents of
the database file (`_db`) are discarded entirely. -/
def setup_simple_database (now : String) (_db : DB) : DB :=
  sample_providers.foldl (fun d p => insert_provider d p now) ⟨[], [], [], 1, 1, 1⟩

/-- The five seeded provider rows as stored, with ids 1 through 5. -/
def seed_rows (now : String) : List ProviderRow :=
  [⟨1, "provider_001", "Rajesh Kumar", "9876543210", "plumber bathroom repair pipe fixing", "Andheri West", "Mumbai", "5 years", "500 per day", 1, now⟩,
   ⟨2, "provider_002", "Suresh Patel", "9876543211", "electrician wiring ac repair", "Bandra East", "Mumbai", "3 years", "400 per day", 1, now⟩,
   ⟨3, "provider_003", "Amit Sharma", "9876543212", "painter wall painting interior", "Powai", "Mumbai", "7 years", "600 per day", 1, now⟩,
   ⟨4, "provider_004", "Ramesh Yadav", "9876543213", "plumber pipeline bathroom fitting", "Hitech City", "Hyderabad", "6 years", "550 per day", 1, now⟩,
   ⟨5, "provider_005", "Krishna Reddy", "9876543214", "electrician home wiring electrical", "Gachibowli", "Hyderabad", "8 years", "700 per day", 1, now⟩]

/-- The database state right after process start. -/
def seedDB : DB := setup_simple_database "seed" emptyDB

/-- Insert into a list that is sorted by descending `id`. -/
def insertByIdDesc (r : ProviderRow) : List ProviderRow → List ProviderRow
  | [] => [r]
  | q :: qs => if q.id ≤ r.id then r :: q :: qs else q :: insertByIdDesc r qs

/-- `ORDER BY id DESC` over the stored rows (ids are unique). -/
def sortIdDesc : List ProviderRow → List ProviderRow
  | [] => []
  | q :: qs => insertByIdDesc q (sortIdDesc qs)

/-- `register_job_provider`.  Arguments follow the Python signature, with
the state `db` and the timestamp `now` made explicit.  (In Python,
`experience` defaults to "1 year" and `daily_rate` to "400 per day".) -/
def register_job_provider (db : DB) (now puch_user_id provider_name phone services work_location city experience daily_rate : String) : String × DB :=
  match db.providers.find? (fun r => r.user_id == puch_user_id) with
  | some existing =>
      ("You are already registered as job provider: " ++ existing.name, db)
  | none =>
      ("Job Provider Registration Successful!\n\nName: " ++ provider_name
        ++ "\nPhone: " ++ phone ++ "\nServices: " ++ services
        ++ "\nLocation: " ++ work_location ++ ", " ++ city
        ++ "\nExperience: " ++ experience ++ "\nRate: " ++ daily_rate
        ++ "\nStatus: Active\n\nYou are now registered as job provider. Job seekers can find you when searching for your services.",
       { db with
           providers := db.providers ++ [⟨db.nextProviderId, puch_user_id, provider_name, phone, services, work_location, city, experience, daily_rate, 1, now⟩],
           nextProviderId := db.nextProviderId + 1 })

/-- `register_job_seeker`. -/
def register_job_seeker (db : DB) (now puch_user_id seeker_name phone location city : String) : String × DB :=
  match db.seekers.find? (fun r => r.user_id == puch_user_id) with
  | some existing =>
      ("You are already registered as job seeker: " ++ existing.name, db)
  | none =>
      ("Job Seeker Registration Successful!\n\nName: " ++ seeker_name
        ++ "\nPhone: " ++ phone ++ "\nLocation: " ++ location ++ ", " ++ city
        ++ "\nStatus: Active\n\nYou can now search for job providers and post job requests.",
       { db with
           seekers := db.seekers ++ [⟨db.nextSeekerId, puch_user_id, seeker_name, phone, location, city, now⟩],
           nextSeekerId := db.nextSeekerId + 1 })

/-- The two search queries of `find_job_providers`:
`WHERE skills LIKE ? [AND city LIKE ?] AND available=1 ORDER BY id DESC LIMIT 5`,
chosen on `if preferred_city:` (Python truthiness = non-empty string). -/
def find_search (db : DB) (service_needed preferred_city : String) : List ProviderRow :=
  if preferred_city ≠ "" then
    (sortIdDesc (db.providers.filter (fun r =>
      likeContains service_needed r.skills && likeContains preferred_city r.city && r.available == 1))).take 5
  else
    (sortIdDesc (db.providers.filter (fun r =>
      likeContains service_needed r.skills && r.available == 1))).take 5

/-- The selection that claim C1 describes, written from the spec words:
case-sensitive substring match on skills and (when a city is given) on
city, availability, descending insertion order, capped at 5. -/
def find_search_claimed (db : DB) (service_needed preferred_city : String) : List ProviderRow :=
  (sortIdDesc (db.providers.filter (fun r =>
    substrCS service_needed r.skills
    && (if preferred_city = "" then true else substrCS preferred_city r.city)
    && r.available == 1))).take 5

/-- One numbered entry of the `find_job_providers` listing, rendered by
positional tuple index exactly as the Python code does. -/
def findEntry (i : Nat) (r : ProviderRow) : String :=
  toString i ++ ". " ++ pcol r 2 ++ "\n   Phone: " ++ pcol r 1
  ++ "\n   Services: " ++ pcol r 2
  ++ "\n   Location: " ++ pcol r 3 ++ ", " ++ pcol r 6
  ++ "\n   Experience: " ++ pcol r 7
  ++ "\n   Rate: " ++ pcol r 4 ++ "\n\n"

/-- The textual reply of `find_job_providers` given the fetched rows. -/
def find_response_text (providers : List ProviderRow) (service_needed preferred_city : String) : String :=
  if providers.isEmpty then
    "No job providers found for " ++ service_needed
    ++ (if preferred_city ≠ "" then " in " ++ preferred_city else "")
  else
    "Found " ++ toString providers.length ++ " job providers for " ++ service_needed ++ ":\n\n"
    ++ String.join ((providers.enumFrom 1).map (fun p => findEntry p.1 p.2))
    ++ "Contact them directly for your job requirements."

/-- The auto-registration step at the top of `find_job_providers`: if no
seeker row exists for the caller, insert one with placeholder values; the
city placeholder is `preferred_city or "Not specified"`. -/
def autoRegisterSeeker (db : DB) (now puch_user_id preferred_city : String) : DB :=
  match db.seekers.find? (fun r => r.user_id == puch_user_id) with
  | some _ => db
  | none =>
      { db with
          seekers := db.seekers ++ [⟨db.nextSeekerId, puch_user_id, "User", "Not provided", "Not specified", (if preferred_city ≠ "" then preferred_city else "Not specified"), now⟩],
          nextSeekerId := db.nextSeekerId + 1 }

/-- `find_job_providers`: auto-register the caller as seeker if needed,
run the search, format the reply. -/
def find_job_providers (db : DB) (now puch_user_id service_needed preferred_city : String) : String × DB :=
  let db1 := autoRegisterSeeker db now puch_user_id preferred_city
  (find_response_text (find_search db1 service_needed preferred_city) service_needed preferred_city, db1)

/-- The success reply of `post_job_request`. -/
def post_request_success_text (job_type job_description job_location : String) : String :=
  "Job Request Posted Successfully!\n\nJob Type: " ++ job_type
  ++ "\nDescription: " ++ job_description ++ "\nLocation: " ++ job_location
  ++ "\nStatus: Open\n\nJob providers can now see your request and contact you directly."

/-- `post_job_request`: refuse unless a seeker row exists, else insert one
job request with status "open". -/
def post_job_request (db : DB) (now puch_user_id job_type job_description job_location : String) : String × DB :=
  match db.seekers.find? (fun r => r.user_id == puch_user_id) with
  | none => ("Please register as job seeker first using register_job_seeker", db)
  | some _ =>
      (post_request_success_text job_type job_description job_location,
       { db with
           requests := db.requests ++ [⟨db.nextRequestId, puch_user_id, job_type, job_description, job_location, "open", now⟩],
           nextRequestId := db.nextRequestId + 1 })

/-- The status label of the provider profile view:
`'Available' if provider[7] else 'Not Available'`.  Index 7 is the
`experience` column (the `available` flag is index 9), so the label tests
Python truthiness — non-emptiness — of the experience string. -/
def providerStatusLabel (r : ProviderRow) : String :=
  if pcol r 7 ≠ "" then "Available" else "Not Available"

/-- The provider branch of `view_job_profile`, rendered by positional
tuple index exactly as the Python code does. -/
def providerProfileText (r : ProviderRow) : String :=
  "Job Provider Profile:\n\nName: " ++ pcol r 2 ++ "\nPhone: " ++ pcol r 1
  ++ "\nServices: " ++ pcol r 2
  ++ "\nLocation: " ++ pcol r 3 ++ ", " ++ pcol r 5
  ++ "\nExperience: " ++ pcol r 6
  ++ "\nRate: " ++ pcol r 4
  ++ "\nStatus: " ++ providerStatusLabel r
  ++ "\n\nYou are registered as job provider. Job seekers can find you for your services."

/-- The seeker branch of `view_job_profile`. -/
def seekerProfileText (s : SeekerRow) (job_requests : Nat) : String :=
  "Job Seeker Profile:\n\nName: " ++ scol s 2 ++ "\nPhone: " ++ scol s 1
  ++ "\nLocation: " ++ scol s 2 ++ ", " ++ scol s 3
  ++ "\nJob Requests Posted: " ++ toString job_requests
  ++ "\n\nYou are registered as job seeker. You can search for job providers and post job requests."

/-- `view_job_profile`: look up both tables; prefer the provider view. -/
def view_job_profile (db : DB) (puch_user_id : String) : String :=
  let provider := db.providers.find? (fun r => r.user_id == puch_user_id)
  let seeker := db.seekers.find? (fun r => r.user_id == puch_user_id)
  let job_requests :=
    match seeker with
    | some _ => (db.requests.filter (fun q => q.seeker_id == puch_user_id)).length
    | none => 0
  match provider with
  | some p => providerProfileText p
  | none =>
      match seeker with
      | some s => seekerProfileText s job_requests
      | none => "No Profile Found\n\nYou can register as:\n1. Job Provider - to offer services and get customers\n2. Job Seeker - to find workers and post job requests\n\nUse the appropriate registration tool to get started."

/-- The incrementally built `browse_job_providers` query before `LIMIT`:
`WHERE available=1 [AND skills LIKE ?] [AND city LIKE ?] ORDER BY id DESC`;
each filter is added only when the corresponding input is non-empty. -/
def browse_filtered (db : DB) (service_filter city_filter : String) : List ProviderRow :=
  sortIdDesc (db.providers.filter (fun r =>
    r.available == 1
    && (if service_filter ≠ "" then likeContains service_filter r.skills else true)
    && (if city_filter ≠ "" then likeContains city_filter r.city else true)))

/-- `LIMIT ?` with the Python int `limit` bound as parameter: SQLite
treats a negative limit as "no limit". -/
def browse_rows (db : DB) (service_filter city_filter : String) (limit : Int) : List ProviderRow :=
  if limit < 0 then browse_filtered db service_filter city_filter
  else (browse_filtered db service_filter city_filter).take limit.toNat

/-- `SELECT COUNT(*) FROM job_providers WHERE available=1` — the total is
computed without the filters. -/
def browse_total (db : DB) : Nat :=
  (db.providers.filter (fun r => r.available == 1)).length

/-- One numbered entry of the `browse_job_providers` listing, rendered by
positional tuple index exactly as the Python code does. -/
def browseEntry (i : Nat) (r : ProviderRow) : String :=
  toString i ++ ". " ++ pcol r 2 ++ "\n   Phone: " ++ pcol r 1
  ++ "\n   Services: " ++ pcol r 2
  ++ "\n   Location: " ++ pcol r 3 ++ ", " ++ pcol r 5
  ++ "\n   Experience: " ++ pcol r 6 ++ " | Rate: " ++ pcol r 4 ++ "\n\n"

/-- The textual reply of `browse_job_providers` given rows and total. -/
def browse_response_text (providers : List ProviderRow) (total : Nat) : String :=
  if providers.isEmpty then
    "No job providers found with current filters. Total available: " ++ toString total
  else
    "Available Job Providers (" ++ toString providers.length ++ " of " ++ toString total ++ "):\n\n"
    ++ String.join ((providers.enumFrom 1).map (fun p => browseEntry p.1 p.2))
    ++ "Contact any provider directly for your job requirements."

/-- `browse_job_providers` (read-only; in Python the limit defaults to 10). -/
def browse_job_providers (db : DB) (service_filter city_filter : String) (limit : Int) : String :=
  browse_response_text (browse_rows db service_filter city_filter limit) (browse_total db)

/-- The `top_services` computation inside `job_marketplace_stats`: fetch
every provider's skills text, split each on whitespace, tally tokens in a
dict, then `sorted(..., key=lambda x: x[1], reverse=True)[:5]`. -/
def top_services (db : DB) : List (String × Nat) :=
  let all_skills := db.providers.map (fun r => r.skills)
  let service_count := all_skills.foldl (fun acc s => (splitWS s).foldl (fun a t => bump t a) acc) []
  (sortCountDesc service_count).take 5

/-- Every token of every provider's skills text, in stored row order. -/
def all_skill_tokens (db : DB) : List String :=
  ((db.providers.map (fun r => r.skills)).map splitWS).flatten

/-- Tally written from the spec words of claim C8: each distinct token in
first-encountered order, paired with its occurrence count over all
providers. -/
def tally_of (ts : List String) : List (String × Nat) :=
  (firstOccExcl [] ts).map (fun t => (t, occCount t ts))

/-- The "top services" ranking as claim C8 describes it: the five most
frequent tokens, equal counts kept in first-encountered order. -/
def top_services_spec (db : DB) : List (String × Nat) :=
  (sortCountDesc (tally_of (all_skill_tokens db))).take 5

/-- Demo state: the user "user_x" registered as provider (with an empty
`experience` string, a legal input) and then as seeker. -/
def dbBothRoles : DB :=
  (register_job_seeker
    (register_job_provider seedDB "t1" "user_x" "Xavier Rao" "9111111111" "cleaning sweeping" "MG Road" "Pune" "" "300 per day").2
    "t2" "user_x" "Xavier Rao" "9111111111" "MG Road" "Pune").2

/-- The provider row stored for "user_x" in `dbBothRoles`. -/
def rowUserX : ProviderRow :=
  ⟨6, "user_x", "Xavier Rao", "9111111111", "cleaning sweeping", "MG Road", "Pune", "", "300 per day", 1, "t1"⟩

/-- Demo state: the seed state plus one registered seeker "seek1". -/
def demoDB1 : DB :=
  (register_job_seeker seedDB "t1" "seek1" "Sita Devi" "9222222222" "Dadar" "Mumbai").2

/-- Demo call: a first search by the never-seen user "u1". -/
def demoFind1 : String × DB := find_job_providers seedDB "t3" "u1" "plumber" ""

theorem map_eq_of_eq {α β : Type} (l : List α) (f g : α → β) (h : ∀ a ∈ l, f a = g a) :
    l.map f = l.map g := by
  induction l with
  | nil => rfl
  | cons a l ih =>
      simp only [List.map_cons, List.cons.injEq]
      exact ⟨h a (List.mem_cons_self a l), ih (fun b hb => h b (List.mem_cons_of_mem a hb))⟩

theorem map_id_of_eq {α : Type} (l : List α) (f : α → α) (h : ∀ a ∈ l, f a = a) :
    l.map f = l := by
  induction l with
  | nil => rfl
  | cons a l ih =>
      simp only [List.map_cons, List.cons.injEq]
      exact ⟨h a (List.mem_cons_self a l), ih (fun b hb => h b (List.mem_cons_of_mem a hb))⟩

theorem filter_eq_of_eq {α : Type} (l : List α) (f g : α → Bool) (h : ∀ a ∈ l, f a = g a) :
    l.filter f = l.filter g := by
  induction l with
  | nil => rfl
  | cons a l ih =>
      simp only [List.filter_cons]
      rw [h a (List.mem_cons_self a l), ih (fun b hb => h b (List.mem_cons_of_mem a hb))]

theorem nodup_append_singleton {α : Type} (l : List α) (a : α) (h : l.Nodup) (ha : a ∉ l) :
    (l ++ [a]).Nodup := by
  induction l with
  | nil => simp
  | cons b l ih =>
      rcases List.nodup_cons.1 h with ⟨hbl, hl⟩
      have hab : a ≠ b := fun hc => ha (hc ▸ List.mem_cons_self b l)
      have hal : a ∉ l := fun hc => ha (List.mem_cons_of_mem b hc)
      rw [List.cons_append, List.nodup_cons]
      refine ⟨?_, ih hl hal⟩
      intro hmem
      rcases List.mem_append.1 hmem with hmem | hmem
      · exact hbl hmem
      · exact hab ((List.mem_singleton.1 hmem).symm)

theorem firstOccExcl_not_mem (ts : List String) :
    ∀ (ex : List String) (x : String), x ∈ firstOccExcl ex ts → x ∉ ex := by
  induction ts with
  | nil =>
      intro ex x hx
      simp only [firstOccExcl] at hx
      exact absurd hx (List.not_mem_nil x)
  | cons t ts ih =>
      intro ex x hx
      by_cases hmem : t ∈ ex
      · rw [show firstOccExcl ex (t :: ts) = firstOccExcl ex ts from by
          simp only [firstOccExcl, if_pos hmem]] at hx
        exact ih ex x hx
      · rw [show firstOccExcl ex (t :: ts) = t :: firstOccExcl (t :: ex) ts from by
          simp only [firstOccExcl, if_neg hmem]] at hx
        rcases List.mem_cons.1 hx with h | h
        · subst h; exact hmem
        · intro hc
          exact (ih (t :: ex) x h) (List.mem_cons_of_mem t hc)

theorem firstOccExcl_congr (ts : List String) :
    ∀ (ex ex2 : List String), (∀ a, a ∈ ex ↔ a ∈ ex2) →
      firstOccExcl ex ts = firstOccExcl ex2 ts := by
  induction ts with
  | nil => intro ex ex2 _; rfl
  | cons t ts ih =>
      intro ex ex2 h
      by_cases hmem : t ∈ ex
      · simp only [firstOccExcl, if_pos hmem, if_pos ((h t).1 hmem)]
        exact ih ex ex2 h
      · have hm2 : t ∉ ex2 := fun hc => hmem ((h t).2 hc)
        simp only [firstOccExcl, if_neg hmem, if_neg hm2]
        exact congrArg (List.cons t)
          (ih (t :: ex) (t :: ex2) (fun a => by simp only [List.mem_cons, h a]))

theorem bump_not_mem (t : String) (acc : List (String × Nat)) (h : t ∉ acc.map Prod.fst) :
    bump t acc = acc ++ [(t, 1)] := by
  induction acc with
  | nil => rfl
  | cons p rest ih =>
      simp only [List.map_cons, List.mem_cons] at h
      push_neg at h
      simp only [bump, List.cons_append]
      rw [if_neg (fun hc => h.1 hc.symm), ih h.2]

theorem bump_mem (t : String) (acc : List (String × Nat)) (hnd : (acc.map Prod.fst).Nodup)
    (h : t ∈ acc.map Prod.fst) :
    bump t acc = acc.map (fun p => if p.1 = t then (p.1, p.2 + 1) else p) := by
  induction acc with
  | nil => exact absurd h (List.not_mem_nil t)
  | cons p rest ih =>
      rw [List.map_cons, List.nodup_cons] at hnd
      simp only [List.map_cons, List.mem_cons] at h
      by_cases hp : p.1 = t
      · simp only [bump, if_pos hp, List.map_cons]
        congr 1
        refine (map_id_of_eq rest _ ?_).symm
        intro q hq
        rw [if_neg]
        intro hc
        have hq1 : q.1 ∈ rest.map Prod.fst := List.mem_map_of_mem Prod.fst hq
        rw [hc, ← hp] at hq1
        exact hnd.1 hq1
      · simp only [bump, if_neg hp, List.map_cons]
        congr 1
        rcases h with h | h
        · exact absurd h.symm hp
        · exact ih hnd.2 h

theorem foldl_bump_spec (ts : List String) :
    ∀ acc : List (String × Nat), (acc.map Prod.fst).Nodup →
      ts.foldl (fun a t => bump t a) acc
        = acc.map (fun p => (p.1, p.2 + occCount p.1 ts))
          ++ (firstOccExcl (acc.map Prod.fst) ts).map (fun t => (t, occCount t ts)) := by
  induction ts with
  | nil =>
      intro acc _
      have h1 : firstOccExcl (acc.map Prod.fst) [] = [] := rfl
      rw [List.foldl_nil, h1, List.map_nil, List.append_nil]
      exact (map_id_of_eq acc _ (fun p _ => by simp [occCount])).symm
  | cons t ts ih =>
      intro acc hnd
      simp only [List.foldl_cons]
      by_cases hmem : t ∈ acc.map Prod.fst
      · rw [bump_mem t acc hnd hmem]
        have hkeys : ((acc.map (fun p => if p.1 = t then (p.1, p.2 + 1) else p)).map Prod.fst)
            = acc.map Prod.fst := by
          rw [List.map_map]
          exact map_eq_of_eq acc _ _ (fun p _ => by by_cases hp : p.1 = t <;> simp [hp])
        rw [ih _ (by rw [hkeys]; exact hnd), hkeys]
        have hfo : firstOccExcl (acc.map Prod.fst) (t :: ts) = firstOccExcl (acc.map Prod.fst) ts := by
          simp only [firstOccExcl, if_pos hmem]
        rw [hfo]
        congr 1
        · rw [List.map_map]
          apply map_eq_of_eq
          intro p _
          simp only [Function.comp_apply]
          by_cases hp : p.1 = t
          · rw [if_pos hp]
            have hocc : occCount p.1 (t :: ts) = 1 + occCount p.1 ts := by
              simp only [occCount]
              rw [if_pos hp.symm]
            simp only [hocc]
            rw [Nat.add_assoc]
          · rw [if_neg hp]
            have hocc : occCount p.1 (t :: ts) = occCount p.1 ts := by
              simp only [occCount]
              rw [if_neg (fun hc => hp hc.symm)]
              omega
            rw [hocc]
        · apply map_eq_of_eq
          intro x hx
          have hxne : x ≠ t := by
            intro hc; subst hc
            exact (firstOccExcl_not_mem ts (acc.map Prod.fst) x hx) hmem
          have hocc : occCount x (t :: ts) = occCount x ts := by
            simp only [occCount]
            rw [if_neg (fun hc => hxne hc.symm)]
            omega
          exact congrArg (Prod.mk x) hocc.symm
      · rw [bump_not_mem t acc hmem]
        have hkeys : (acc ++ [(t, 1)]).map Prod.fst = acc.map Prod.fst ++ [t] := by
          simp [List.map_append]
        have hnd2 : ((acc ++ [(t, 1)]).map Prod.fst).Nodup := by
          rw [hkeys]; exact nodup_append_singleton _ _ hnd hmem
        rw [ih _ hnd2, hkeys]
        have hfo : firstOccExcl (acc.map Prod.fst) (t :: ts)
            = t :: firstOccExcl (t :: acc.map Prod.fst) ts := by
          simp only [firstOccExcl, if_neg hmem]
        rw [hfo, List.map_append, List.append_assoc]
        congr 1
        · apply map_eq_of_eq
          intro p hp
          have hne : p.1 ≠ t := by
            intro hc
            exact hmem (hc ▸ List.mem_map_of_mem Prod.fst hp)
          have hocc : occCount p.1 (t :: ts) = occCount p.1 ts := by
            simp only [occCount]
            rw [if_neg (fun hc => hne hc.symm)]
            omega
          exact congrArg (fun n => (p.1, p.2 + n)) hocc.symm
        · simp only [List.map_cons, List.map_nil, List.singleton_append]
          congr 1
          · have hocc : occCount t (t :: ts) = 1 + occCount t ts := by
              simp [occCount]
            simp [hocc]
          · rw [firstOccExcl_congr ts (acc.map Prod.fst ++ [t]) (t :: acc.map Prod.fst)
              (fun a => by simp only [List.mem_append, List.mem_cons, List.mem_singleton]; tauto)]
            apply map_eq_of_eq
            intro x hx
            have hxne : x ≠ t := by
              intro hc; subst hc
              exact (firstOccExcl_not_mem ts (x :: acc.map Prod.fst) x hx)
                (List.mem_cons_self x (acc.map Prod.fst))
            have hocc : occCount x (t :: ts) = occCount x ts := by
              simp only [occCount]
              rw [if_neg (fun hc => hxne hc.symm)]
              omega
            exact congrArg (Prod.mk x) hocc.symm

theorem foldl_bump_join (L : List (List String)) :
    ∀ acc : List (String × Nat),
      L.foldl (fun a ts => ts.foldl (fun b t => bump t b) a) acc
        = L.flatten.foldl (fun b t => bump t b) acc := by
  induction L with
  | nil => intro acc; rfl
  | cons ts L ih =>
      intro acc
      simp only [List.foldl_cons, List.flatten_cons, List.foldl_append]
      exact ih _

/-- C5: running the bootstrap from any prior database state yields exactly
the five fixed sample provider rows, zero seeker rows, and zero job-request
rows; all previously persisted data is discarded. -/
theorem setup_simple_database_resets_state (db : DB) (now : String) :
    setup_simple_database now db
      = { providers := seed_rows now, seekers := [], requests := [],
          nextProviderId := 6, nextSeekerId := 1, nextRequestId := 1 }
    ∧ (setup_simple_database now db).providers.length = 5
    ∧ (setup_simple_database now db).seekers = []
    ∧ (setup_simple_database now db).requests = [] :=
  ⟨rfl, rfl, rfl, rfl⟩

/-- C3: when a provider row with the given user id already exists,
`register_job_provider` returns the "already registered" text echoing the
existing provider's name and leaves the whole database state (hence every
table, hence the provider count for that id) unchanged. -/
theorem register_job_provider_already_registered (db : DB)
    (now uid n p s wl c e r : String) (q0 : ProviderRow)
    (h : db.providers.find? (fun q => q.user_id == uid) = some q0) :
    register_job_provider db now uid n p s wl c e r
      = ("You are already registered as job provider: " ++ q0.name, db) := by
  unfold register_job_provider
  rw [h]

theorem register_job_provider_already_registered_witness :
    seedDB.providers.find? (fun q => q.user_id == "provider_001")
        = some ⟨1, "provider_001", "Rajesh Kumar", "9876543210", "plumber bathroom repair pipe fixing", "Andheri West", "Mumbai", "5 years", "500 per day", 1, "seed"⟩
    ∧ register_job_provider seedDB "t0" "provider_001" "New Name" "123" "misc" "Loc" "City" "2 years" "100 per day"
        = ("You are already registered as job provider: " ++ "Rajesh Kumar", seedDB) := by
  refine ⟨by decide, ?_⟩
  exact register_job_provider_already_registered seedDB "t0" "provider_001" "New Name" "123"
    "misc" "Loc" "City" "2 years" "100 per day"
    ⟨1, "provider_001", "Rajesh Kumar", "9876543210", "plumber bathroom repair pipe fixing", "Andheri West", "Mumbai", "5 years", "500 per day", 1, "seed"⟩ (by decide)

/-- C4: `post_job_request` refuses (with the instructive text, leaving the
state unchanged) when the caller has no seeker row, and otherwise inserts
exactly one job-request row with status "open". -/
theorem post_job_request_requires_seeker (db : DB) (now uid jt jd jl : String) :
    (db.seekers.find? (fun r => r.user_id == uid) = none →
      post_job_request db now uid jt jd jl
        = ("Please register as job seeker first using register_job_seeker", db))
    ∧ (∀ s0 : SeekerRow, db.seekers.find? (fun r => r.user_id == uid) = some s0 →
      post_job_request db now uid jt jd jl
        = (post_request_success_text jt jd jl,
           { db with
               requests := db.requests ++ [⟨db.nextRequestId, uid, jt, jd, jl, "open", now⟩],
               nextRequestId := db.nextRequestId + 1 })) := by
  constructor
  · intro h; unfold post_job_request; rw [h]
  · intro s0 h; unfold post_job_request; rw [h]

theorem post_job_request_requires_seeker_witness :
    post_job_request seedDB "t9" "ghost" "fix" "desc" "loc"
      = ("Please register as job seeker first using register_job_seeker", seedDB)
    ∧ post_job_request demoDB1 "t5" "seek1" "fix tap" "leaking tap" "Andheri"
      = (post_request_success_text "fix tap" "leaking tap" "Andheri",
         { demoDB1 with
             requests := demoDB1.requests ++ [⟨demoDB1.nextRequestId, "seek1", "fix tap", "leaking tap", "Andheri", "open", "t5"⟩],
             nextRequestId := demoDB1.nextRequestId + 1 }) :=
  ⟨(post_job_request_requires_seeker seedDB "t9" "ghost" "fix" "desc" "loc").1 (by decide),
   (post_job_request_requires_seeker demoDB1 "t5" "seek1" "fix tap" "leaking tap" "Andheri").2
     ⟨1, "seek1", "Sita Devi", "9222222222", "Dadar", "Mumbai", "t1"⟩ (by decide)⟩

/-- C7: a call to `find_job_providers` by a user with no seeker row creates
exactly one seeker row for that id with placeholder name "User",
placeholder phone and placeholder location before anything else; when a
seeker row already exists none is created. -/
theorem find_job_providers_auto_registers_seeker (db : DB) (now uid service city : String) :
    (db.seekers.find? (fun r => r.user_id == uid) = none →
      (find_job_providers db now uid service city).2.seekers
        = db.seekers ++ [⟨db.nextSeekerId, uid, "User", "Not provided", "Not specified",
            (if city ≠ "" then city else "Not specified"), now⟩])
    ∧ (∀ s0 : SeekerRow, db.seekers.find? (fun r => r.user_id == uid) = some s0 →
      (find_job_providers db now uid service city).2.seekers = db.seekers) := by
  have h2 : (find_job_providers db now uid service city).2 = autoRegisterSeeker db now uid city := rfl
  constructor
  · intro h
    rw [h2]
    unfold autoRegisterSeeker
    rw [h]
  · intro s0 h
    rw [h2]
    unfold autoRegisterSeeker
    rw [h]

theorem find_job_providers_auto_registers_seeker_witness :
    (find_job_providers seedDB "t3" "u1" "plumber" "").2.seekers
      = seedDB.seekers ++ [⟨1, "u1", "User", "Not provided", "Not specified", "Not specified", "t3"⟩]
    ∧ (find_job_providers demoFind1.2 "t4" "u1" "electrician" "").2.seekers = demoFind1.2.seekers :=
  ⟨(find_job_providers_auto_registers_seeker seedDB "t3" "u1" "plumber" "").1 (by decide),
   (find_job_providers_auto_registers_seeker demoFind1.2 "t4" "u1" "electrician" "").2
     ⟨1, "u1", "User", "Not provided", "Not specified", "Not specified", "t3"⟩ (by decide)⟩

/-- C9: in both listing formats the numbered heading and the "Services:"
line render tuple index 2, the name column, so the displayed services text
equals the displayed provider name (and the other lines are off by the
same positional-indexing slip). -/
theorem find_and_browse_render_name_as_services (i : Nat) (r : ProviderRow) :
    findEntry i r
      = toString i ++ ". " ++ r.name ++ "\n   Phone: " ++ r.user_id
        ++ "\n   Services: " ++ r.name
        ++ "\n   Location: " ++ r.phone ++ ", " ++ r.city
        ++ "\n   Experience: " ++ r.experience
        ++ "\n   Rate: " ++ r.skills ++ "\n\n"
    ∧ browseEntry i r
      = toString i ++ ". " ++ r.name ++ "\n   Phone: " ++ r.user_id
        ++ "\n   Services: " ++ r.name
        ++ "\n   Location: " ++ r.phone ++ ", " ++ r.location
        ++ "\n   Experience: " ++ r.city ++ " | Rate: " ++ r.skills ++ "\n\n" :=
  ⟨rfl, rfl⟩

set_option maxRecDepth 4000 in
/-- C2 (code bug): for the reachable state `dbBothRoles` — "user_x"
registered as provider with an empty experience string and also as seeker —
the provider view is rendered, the stored availability flag is 1 (true),
yet the status line reads "Not Available", because the code tests
`provider[7]` (experience) instead of `provider[9]` (available). -/
theorem view_profile_status_ignores_available_flag :
    view_job_profile dbBothRoles "user_x" = providerProfileText rowUserX
    ∧ dbBothRoles.providers.find? (fun r => r.user_id == "user_x") = some rowUserX
    ∧ rowUserX.available = 1
    ∧ providerStatusLabel rowUserX = "Not Available" :=
  ⟨by decide, by decide, rfl, by decide⟩

/-- C1 (amended): the rows returned by the search of `find_job_providers`
are exactly the available rows whose skills match the SQLite `LIKE`
pattern built from the service term (ASCII-case-insensitive, `%` and `_`
as wildcards) — ANDed, when a non-empty city is given, with the same kind
of match on city — in descending id order, capped at 5. -/
theorem find_job_providers_like_semantics (db : DB) (service city : String) :
    find_search db service city
      = (sortIdDesc (db.providers.filter (fun r =>
          likeContains service r.skills
          && (if city = "" then true else likeContains city r.city)
          && r.available == 1))).take 5
    ∧ (find_search db service city).length ≤ 5 := by
  constructor
  · unfold find_search
    by_cases hc : city = ""
    · subst hc
      rw [if_neg (by simp)]
      exact congrArg (fun l => (sortIdDesc l).take 5)
        (filter_eq_of_eq _ _ _ (fun r _ => by simp))
    · rw [if_pos hc]
      exact congrArg (fun l => (sortIdDesc l).take 5)
        (filter_eq_of_eq _ _ _ (fun r _ => by simp [hc]))
  · unfold find_search
    rcases Decidable.em (city ≠ "") with hc | hc
    · rw [if_pos hc, List.length_take]
      exact Nat.min_le_left _ _
    · rw [if_neg hc, List.length_take]
      exact Nat.min_le_left _ _

/-- C1 counterexample: against the seed state, searching for "PLUMBER"
returns two providers (SQLite `LIKE` is ASCII-case-insensitive), while the
case-sensitive-substring selection described by the claim returns none —
so the returned rows are not the case-sensitive matches. -/
theorem find_search_case_sensitive_refuted :
    find_search seedDB "PLUMBER" "" ≠ find_search_claimed seedDB "PLUMBER" ""
    ∧ (find_search seedDB "PLUMBER" "").length = 2
    ∧ find_search_claimed seedDB "PLUMBER" "" = [] :=
  ⟨by decide, by decide, by decide⟩

/-- C6: with a positive limit L, `browse_job_providers` fetches the
filtered rows capped at L (so at most L of them), while the reported total
counts every available provider and ignores both filters. -/
theorem browse_job_providers_limit_and_total (db : DB) (sf cf : String) (L : Int) (h : 0 < L) :
    browse_rows db sf cf L = (browse_filtered db sf cf).take L.toNat
    ∧ (browse_rows db sf cf L).length ≤ L.toNat
    ∧ browse_total db = (db.providers.filter (fun r => r.available == 1)).length := by
  have h1 : browse_rows db sf cf L = (browse_filtered db sf cf).take L.toNat := by
    unfold browse_rows
    rw [if_neg (by omega)]
  refine ⟨h1, ?_, rfl⟩
  rw [h1, List.length_take]
  exact Nat.min_le_left _ _

theorem browse_job_providers_limit_and_total_witness :
    (0 : Int) < 2
    ∧ browse_rows seedDB "" "" 2 = (browse_filtered seedDB "" "").take (2 : Int).toNat
    ∧ (browse_rows seedDB "" "" 2).length = 2
    ∧ browse_total seedDB = 5
    ∧ substrCS " (2 of 5)" (browse_job_providers seedDB "" "" 2) = true :=
  ⟨by decide,
   (browse_job_providers_limit_and_total seedDB "" "" 2 (by decide)).1,
   by decide, by decide, by decide⟩

/-- C10: `browse_job_providers` with limit 0 always answers the
no-results message carrying the unfiltered total, whatever the filters
match; a negative limit removes the cap, returning every available row
that matches the filters. -/
theorem browse_zero_and_negative_limit (db : DB) (sf cf : String) (L : Int) :
    browse_job_providers db sf cf 0
      = "No job providers found with current filters. Total available: " ++ toString (browse_total db)
    ∧ (L < 0 → browse_rows db sf cf L = browse_filtered db sf cf) := by
  constructor
  · rfl
  · intro h
    unfold browse_rows
    rw [if_pos h]

theorem browse_zero_and_negative_limit_witness :
    browse_job_providers seedDB "plumber" "" 0
      = "No job providers found with current filters. Total available: " ++ toString (browse_total seedDB)
    ∧ (-1 : Int) < 0
    ∧ browse_rows seedDB "plumber" "" (-1) = browse_filtered seedDB "plumber" "" :=
  ⟨(browse_zero_and_negative_limit seedDB "plumber" "" (-1)).1, by decide,
   (browse_zero_and_negative_limit seedDB "plumber" "" (-1)).2 (by decide)⟩

/-- C8: for every database state, the top-services list computed inside
`job_marketplace_stats` — dict tally of the whitespace-split skills tokens,
then a stable descending sort and `[:5]` — equals the spec description:
tally every token by its occurrence count over all providers (distinct
tokens in first-encountered order) and take the five most frequent,
equal counts staying in first-encountered order. -/
theorem job_marketplace_stats_top_services_spec (db : DB) :
    top_services db = top_services_spec db := by
  have hA : (db.providers.map (fun r => r.skills)).foldl
      (fun acc s => (splitWS s).foldl (fun a t => bump t a) acc) ([] : List (String × Nat))
      = ((db.providers.map (fun r => r.skills)).map splitWS).foldl
        (fun a ts => ts.foldl (fun b t => bump t b) a) [] :=
    (List.foldl_map splitWS (fun a ts => ts.foldl (fun b t => bump t b) a)
      (db.providers.map (fun r => r.skills)) []).symm
  have h1 : (db.providers.map (fun r => r.skills)).foldl
      (fun acc s => (splitWS s).foldl (fun a t => bump t a) acc) ([] : List (String × Nat))
      = tally_of (all_skill_tokens db) := by
    rw [hA, foldl_bump_join, foldl_bump_spec _ _ (by simp)]
    simp [tally_of, all_skill_tokens]
  show (sortCountDesc ((db.providers.map (fun r => r.skills)).foldl
      (fun acc s => (splitWS s).foldl (fun a t => bump t a) acc) [])).take 5
    = top_services_spec db
  rw [h1]
  rfl
